import Mathlib

/-!
Shallow embedding of rl4co/envs/mdpp.py (MDPPEnv): instance generation,
probe-aware action masking at reset, and the multi-probe reward aggregation.
Randomness is made explicit: every stochastic torch primitive is modelled as a
function of entropy arguments supplied by the caller, so that every claim can
be stated as a property of the draws.
-/

namespace MDPP

/-- Models torch.randint(lo, hi): a uniform integer of the half-open range
from lo (inclusive) to hi (exclusive), as a function of an entropy value u. -/
def randint (lo hi u : ℕ) : ℕ := lo + u % (hi - lo)

/-- Configuration of MDPPEnv: the fields of self consumed by the embedded
methods. size and the two keepout bounds are inherited from DPPEnv; the probe
bounds and reward_type are set by MDPPEnv.__init__. -/
structure Env where
  size : ℕ
  num_probes_min : ℕ
  num_probes_max : ℕ
  num_keepout_min : ℕ
  num_keepout_max : ℕ
  reward_type : String

/-- MDPPEnv.__init__: asserts reward_type is minmax or meansum. The assert
fires while constructing the object, before _make_spec and before any call to
generate_data, so an invalid reward_type never yields a usable Env. -/
def mdpp_init (size npmin npmax nkmin nkmax : ℕ) (rt : String) : Option Env :=
  if rt = "minmax" ∨ rt = "meansum" then
    some { size := size, num_probes_min := npmin, num_probes_max := npmax,
           num_keepout_min := nkmin, num_keepout_max := nkmax, reward_type := rt }
  else
    none

/-- The number of grid cells, N = size * size (m = n = size in the source). -/
def grid_n (e : Env) : ℕ := e.size * e.size

/-- Per-instance random draws consumed by generate_data, in program order: the
entropy for the designated probe cell, the entropy for the probe count, the
probe permutation (torch.randperm of the N cell indices), the entropy for the
keepout count, and the keepout permutation. -/
structure GenDraws where
  uInit : ℕ
  uNumProbe : ℕ
  permProbe : List ℕ
  uNumKeepout : ℕ
  permKeepout : List ℕ

/-- Models tensor.scatter(0, idx, False) on a 1-D boolean tensor: write false
at every index of idxs. -/
def scatterFalse (l : List Bool) (idxs : List ℕ) : List Bool :=
  idxs.foldl (fun a i => a.set i false) l

/-- Models tensor.scatter(0, idx, True) on a 1-D boolean tensor: write true at
every index of idxs. -/
def scatterTrue (l : List Bool) (idxs : List ℕ) : List Bool :=
  idxs.foldl (fun a i => a.set i true) l

/-- The designated single probe cell: probe = torch.randint(m * n, size=(bs, 1))
for this instance. -/
def designated (e : Env) (d : GenDraws) : ℕ := randint 0 (grid_n e) d.uInit

/-- The sampled probe count: num_probe = torch.randint(num_probes_min,
num_probes_max, size=(bs, 1)) for this instance. -/
def num_probe_of (e : Env) (d : GenDraws) : ℕ :=
  randint e.num_probes_min e.num_probes_max d.uNumProbe

/-- The probe cells of this instance: torch.randperm(m * n)[:num_probe]. -/
def probe_cells (e : Env) (d : GenDraws) : List ℕ :=
  d.permProbe.take (num_probe_of e d)

/-- The sampled keepout count: num_keepout = torch.randint(num_keepout_min,
num_keepout_max, size=(bs, 1)) for this instance. -/
def num_keepout_of (e : Env) (d : GenDraws) : ℕ :=
  randint e.num_keepout_min e.num_keepout_max d.uNumKeepout

/-- The keepout cells of this instance: torch.randperm(m * n)[:num_keepout],
drawn from the full cell range, independently of the probe draws. -/
def keepout_cells (e : Env) (d : GenDraws) : List ℕ :=
  d.permKeepout.take (num_keepout_of e d)

/-- The normalized grid coordinates: meshgrid(arange m, arange n) stacked and
reshaped row major, then divided elementwise by (m, n); cell k holds
(k / n / m, k mod n / n) with m = n = size. -/
def locs_of (e : Env) : List (ℚ × ℚ) :=
  (List.range (grid_n e)).map (fun k =>
    (((k / e.size : ℕ) : ℚ) / (e.size : ℚ), ((k % e.size : ℕ) : ℚ) / (e.size : ℚ)))

/-- One generated problem instance: the fields of the TensorDict returned by
generate_data (per instance). -/
structure Instance where
  locs : List (ℚ × ℚ)
  probe : List Bool
  action_mask : List Bool

/-- MDPPEnv.generate_data for one instance of the batch: start from an
all-true available mask, scatter false at the designated probe cell, scatter
false at the probe cells (and true into the probe mask), then scatter false at
the keepout cells; emit locs, probe and action_mask = available. -/
def generate_instance (e : Env) (d : GenDraws) : Instance :=
  let available0 := List.replicate (grid_n e) true
  let available1 := available0.set (designated e d) false
  let available2 := scatterFalse available1 (probe_cells e d)
  let probes := scatterTrue (List.replicate (grid_n e) false) (probe_cells e d)
  let available3 := scatterFalse available2 (keepout_cells e d)
  { locs := locs_of e, probe := probes, action_mask := available3 }

/-- MDPPEnv.generate_data on a batch: each instance of the batch is produced
from its own draws. -/
def generate_batch (e : Env) (ds : List GenDraws) : List Instance :=
  ds.map (generate_instance e)

/-- Modelled from the spec: DPPEnv._reset (rl4co/envs/dpp.py, which is not
part of the sources here). Per the design document the base reset populates
locs and the progress fields and forwards the generated action_mask, which at
reset reflects only keepout exclusions since no placement has happened yet; it
does not change locs, probe or action_mask of the generated instance. -/
def dpp_base_reset (inst : Instance) : Instance := inst

/-- MDPPEnv._reset: delegates to the base reset, then sets
action_mask = torch.logical_or(action_mask, probe) on the result. -/
def mdpp_reset (inst : Instance) : Instance :=
  let td_reset := dpp_base_reset inst
  { td_reset with
    action_mask :=
      List.zipWith (fun a p => a || p) td_reset.action_mask td_reset.probe }

/-- Models torch.nonzero on a 1-D boolean tensor followed by squeeze on the
result of its length: the increasing list of indices holding true. -/
def nonzeroIdx (mask : List Bool) : List ℕ :=
  (List.range mask.length).filter (fun i => mask.getD i false)

/-- Models the cast performed when a real-valued score is assigned into a cell
of an int64 tensor: truncation toward zero, computed as the rounded-toward-zero
quotient of the numerator by the (positive) denominator. -/
def truncToInt (q : ℚ) : ℤ := q.num.tdiv (q.den : ℤ)

/-- Models tensor.min() on a 1-D int64 tensor: the minimum, or an error (none)
on an empty tensor. -/
def listMin : List ℤ → Option ℤ
  | [] => none
  | x :: xs => some (xs.foldl min x)

/-- MDPPEnv._single_env_reward. list_probe = torch.nonzero(probe).squeeze():
when the instance has exactly one probe the squeeze yields a 0-dim tensor and
iterating it raises, hence none. scores = torch.zeros_like(list_probe) is an
int64 tensor (list_probe is an index tensor), so each simulator score is
truncated toward zero when stored. On the minmax branch scores.min() is
returned (an error on an empty tensor); on the other branch scores.mean()
raises at runtime because torch.mean rejects integer dtypes, hence none.
The simulator itself is modelled from the spec as an arbitrary rational-valued
function of (probe cell, action sequence), since DPPEnv._decap_simulator is
not part of the sources here. -/
def single_env_reward (rt : String) (sim : ℕ → List ℕ → ℚ)
    (probe : List Bool) (actions : List ℕ) : Option ℚ :=
  let list_probe := nonzeroIdx probe
  if list_probe.length = 1 then none
  else
    let scores := list_probe.map (fun p => truncToInt (sim p actions))
    if rt = "minmax" then (listMin scores).map (fun z => (z : ℚ)) else none

/-- MDPPEnv.get_reward on a batched input: one _single_env_reward call per
(instance, action-sequence) pair, stacked. -/
def get_reward_batched (rt : String) (sim : ℕ → List ℕ → ℚ)
    (tds : List (List Bool)) (actionsB : List (List ℕ)) : List (Option ℚ) :=
  List.zipWith (fun td a => single_env_reward rt sim td a) tds actionsB

/-- MDPPEnv.get_reward on an unbatched input: td and actions get a leading
batch axis of size 1 (unsqueeze), then the batched loop runs; the result keeps
its shape (1,). -/
def get_reward_single (rt : String) (sim : ℕ → List ℕ → ℚ)
    (td : List Bool) (actions : List ℕ) : List (Option ℚ) :=
  get_reward_batched rt sim [td] [actions]

/-- Concrete environment for the worked examples: a 2 x 2 grid (N = 4), probe
count drawn from [2, 3) so always 2, keepout count drawn from [0, 1) so always
0, minmax reward. -/
def envA : Env :=
  { size := 2, num_probes_min := 2, num_probes_max := 3,
    num_keepout_min := 0, num_keepout_max := 1, reward_type := "minmax" }

/-- Concrete valid draws for envA: designated cell 0, probe permutation
giving probe cells 1 and 2, keepout permutation unused (count 0). -/
def drawsA : GenDraws :=
  { uInit := 0, uNumProbe := 0, permProbe := [1, 2, 3, 0],
    uNumKeepout := 0, permKeepout := [0, 1, 2, 3] }

/-- Concrete environment drawing exactly one keepout cell per instance: the
keepout count comes from [1, 2). -/
def envB : Env :=
  { size := 2, num_probes_min := 2, num_probes_max := 3,
    num_keepout_min := 1, num_keepout_max := 2, reward_type := "minmax" }

/-- Concrete valid draws for envB: probe cells 1 and 2, and a keepout
permutation starting at cell 1, so the single keepout cell is the probe
cell 1. -/
def drawsB : GenDraws :=
  { uInit := 3, uNumProbe := 0, permProbe := [1, 2, 0, 3],
    uNumKeepout := 0, permKeepout := [1, 0, 2, 3] }

theorem length_scatterFalse (idxs : List ℕ) (l : List Bool) :
    (scatterFalse l idxs).length = l.length := by
  induction idxs generalizing l with
  | nil => rfl
  | cons i rest ih =>
    show (scatterFalse (l.set i false) rest).length = l.length
    rw [ih, List.length_set]

theorem length_scatterTrue (idxs : List ℕ) (l : List Bool) :
    (scatterTrue l idxs).length = l.length := by
  induction idxs generalizing l with
  | nil => rfl
  | cons i rest ih =>
    show (scatterTrue (l.set i true) rest).length = l.length
    rw [ih, List.length_set]

theorem getD_set_false_eq_false (l : List Bool) (i c : ℕ) :
    ((l.set i false).getD c false = false ↔ (l.getD c false = false ∨ i = c)) := by
  by_cases h : i = c
  · subst h
    by_cases h2 : i < l.length <;>
      simp [List.getD_eq_getElem?_getD, List.getElem?_set, h2]
  · simp [List.getD_eq_getElem?_getD, List.getElem?_set, h]

theorem getD_scatterFalse_eq_false (idxs : List ℕ) (l : List Bool) (c : ℕ) :
    ((scatterFalse l idxs).getD c false = false ↔ (l.getD c false = false ∨ c ∈ idxs)) := by
  induction idxs generalizing l with
  | nil => simp [scatterFalse]
  | cons i rest ih =>
    show ((scatterFalse (l.set i false) rest).getD c false = false ↔ _)
    rw [ih, getD_set_false_eq_false]
    constructor
    · rintro ((h | h) | h)
      · exact Or.inl h
      · exact Or.inr (h ▸ List.mem_cons_self i rest)
      · exact Or.inr (List.mem_cons_of_mem i h)
    · rintro (h | h)
      · exact Or.inl (Or.inl h)
      · rcases List.mem_cons.mp h with h | h
        · exact Or.inl (Or.inr h.symm)
        · exact Or.inr h

theorem getD_set_true_eq_true (l : List Bool) (i c : ℕ) :
    ((l.set i true).getD c false = true ↔
      (l.getD c false = true ∨ (i = c ∧ c < l.length))) := by
  by_cases h : i = c
  · subst h
    by_cases h2 : i < l.length
    · simp [List.getD_eq_getElem?_getD, List.getElem?_set, h2]
    · simp [List.getD_eq_getElem?_getD, List.getElem?_set, h2,
        List.getElem?_eq_none (Nat.le_of_not_lt h2)]
  · simp [List.getD_eq_getElem?_getD, List.getElem?_set, h]

theorem getD_scatterTrue_eq_true (idxs : List ℕ) (l : List Bool) (c : ℕ) :
    ((scatterTrue l idxs).getD c false = true ↔
      (l.getD c false = true ∨ (c ∈ idxs ∧ c < l.length))) := by
  induction idxs generalizing l with
  | nil => simp [scatterTrue]
  | cons i rest ih =>
    show ((scatterTrue (l.set i true) rest).getD c false = true ↔ _)
    rw [ih, getD_set_true_eq_true, List.length_set]
    constructor
    · rintro ((h | ⟨h, h2⟩) | ⟨h, h2⟩)
      · exact Or.inl h
      · exact Or.inr ⟨h ▸ List.mem_cons_self i rest, h2⟩
      · exact Or.inr ⟨List.mem_cons_of_mem i h, h2⟩
    · rintro (h | ⟨h, h2⟩)
      · exact Or.inl (Or.inl h)
      · rcases List.mem_cons.mp h with h | h
        · exact Or.inl (Or.inr ⟨h.symm, h2⟩)
        · exact Or.inr ⟨h, h2⟩

theorem getD_zipWith_or (a b : List Bool) (c : ℕ) (h : a.length = b.length) :
    ((List.zipWith (fun x y => x || y) a b).getD c false
      = (a.getD c false || b.getD c false)) := by
  induction a generalizing b c with
  | nil =>
    cases b with
    | nil => simp
    | cons y ys => simp at h
  | cons x xs ih =>
    cases b with
    | nil => simp at h
    | cons y ys =>
      cases c with
      | zero => simp
      | succ n =>
        simpa using ih ys n (by simpa using h)

theorem getD_replicate_true (n c : ℕ) :
    ((List.replicate n true).getD c false = false ↔ n ≤ c) := by
  by_cases h : c < n
  · simp [List.getD_eq_getElem?_getD, List.getElem?_replicate, h]
  · simp [List.getD_eq_getElem?_getD, List.getElem?_replicate, h]
    omega

theorem getD_replicate_false (n c : ℕ) :
    (List.replicate n false).getD c false = false := by
  by_cases h : c < n <;>
    simp [List.getD_eq_getElem?_getD, List.getElem?_replicate, h]

theorem length_generated_mask (e : Env) (d : GenDraws) :
    (generate_instance e d).action_mask.length = grid_n e := by
  simp [generate_instance, length_scatterFalse, List.length_set, List.length_replicate]

theorem length_generated_probe (e : Env) (d : GenDraws) :
    (generate_instance e d).probe.length = grid_n e := by
  simp [generate_instance, length_scatterTrue, List.length_replicate]

theorem generated_mask_eq_false (e : Env) (d : GenDraws) (c : ℕ) (hc : c < grid_n e) :
    ((generate_instance e d).action_mask.getD c false = false ↔
      (designated e d = c ∨ c ∈ probe_cells e d ∨ c ∈ keepout_cells e d)) := by
  show ((scatterFalse (scatterFalse ((List.replicate (grid_n e) true).set
      (designated e d) false) (probe_cells e d)) (keepout_cells e d)).getD c false = false ↔ _)
  rw [getD_scatterFalse_eq_false, getD_scatterFalse_eq_false, getD_set_false_eq_false,
    getD_replicate_true]
  constructor
  · rintro (((h | h) | h) | h)
    · omega
    · exact Or.inl h
    · exact Or.inr (Or.inl h)
    · exact Or.inr (Or.inr h)
  · rintro (h | h | h)
    · exact Or.inl (Or.inl (Or.inr h))
    · exact Or.inl (Or.inr h)
    · exact Or.inr h

theorem generated_probe_eq_true (e : Env) (d : GenDraws) (c : ℕ) :
    ((generate_instance e d).probe.getD c false = true ↔
      (c ∈ probe_cells e d ∧ c < grid_n e)) := by
  show ((scatterTrue (List.replicate (grid_n e) false) (probe_cells e d)).getD c false = true ↔ _)
  rw [getD_scatterTrue_eq_true, List.length_replicate, getD_replicate_false]
  simp

theorem reset_mask_getD (inst : Instance) (h : inst.action_mask.length = inst.probe.length)
    (c : ℕ) :
    ((mdpp_reset inst).action_mask.getD c false
      = (inst.action_mask.getD c false || inst.probe.getD c false)) := by
  show ((List.zipWith (fun a p => a || p) inst.action_mask inst.probe).getD c false = _)
  exact getD_zipWith_or inst.action_mask inst.probe c h

theorem length_nonzeroIdx (l : List Bool) : (nonzeroIdx l).length = l.count true := by
  induction l with
  | nil => rfl
  | cons b t ih =>
    have hsplit : nonzeroIdx (b :: t)
        = (if b then [0] else []) ++ (nonzeroIdx t).map Nat.succ := by
      simp only [nonzeroIdx, List.length_cons, List.range_succ_eq_map, List.filter_cons,
        List.getD_cons_zero]
      cases b <;> simp [List.filter_map, Function.comp_def, List.getD_cons_succ]
    rw [hsplit]
    cases b <;> simp [ih, List.count_cons]

/-- C1: the spec requires that after _reset every probe cell is unselectable
(action_mask false, with true meaning legal to select). The code instead sets
action_mask = logical_or(action_mask, probe), turning every probe cell back to
true, although generate_data documents that the mask eliminates the probe
locations. Evaluated at the concrete instance envA with draws drawsA (both
permutations are valid permutations of the 4 cells): cell 1 is a probe cell,
the generated mask correctly holds false there, and the post-reset mask holds
true there. -/
theorem c1_reset_makes_probe_cells_selectable :
    drawsA.permProbe.Perm (List.range (grid_n envA)) ∧
    drawsA.permKeepout.Perm (List.range (grid_n envA)) ∧
    (generate_instance envA drawsA).probe.getD 1 false = true ∧
    (generate_instance envA drawsA).action_mask.getD 1 false = false ∧
    (mdpp_reset (dpp_base_reset (generate_instance envA drawsA))).action_mask.getD 1 false
      = true := by
  decide

/-- C2: the spec requires minmax = min of the per-probe simulator scores and
meansum = their mean, with scores 0.4 and 0.9 giving 0.4 and 0.65. In the code
the scores buffer is torch.zeros_like of the int64 probe-index tensor, so the
stored scores are truncated toward zero: with a simulator scoring 2/5 at probe
cell 1 and 9/10 at probe cell 2, minmax returns 0 rather than 2/5, and the
meansum branch returns no value at all since torch.mean rejects integer
dtypes. -/
theorem c2_scores_truncated_to_int :
    single_env_reward "minmax" (fun p _ => if p = 1 then mkRat 2 5 else mkRat 9 10)
      [false, true, true, false] [0] = some 0 ∧
    single_env_reward "minmax" (fun p _ => if p = 1 then mkRat 2 5 else mkRat 9 10)
      [false, true, true, false] [0] ≠ some (mkRat 2 5) ∧
    single_env_reward "meansum" (fun p _ => if p = 1 then mkRat 2 5 else mkRat 9 10)
      [false, true, true, false] [0] = none := by
  decide

/-- C7: the claim compares the minmax reward with the meansum reward of the
same instance and non-uniform per-probe scores. On the code the comparison has
no right-hand side: the scores tensor is integer-typed, so scores.mean()
raises and the meansum branch never yields a value, while minmax returns the
minimum of the truncated scores. Evaluated with scores 1/2 and 3/2 at probe
cells 0 and 2. -/
theorem c7_meansum_side_never_returns :
    single_env_reward "minmax" (fun p _ => if p = 0 then mkRat 1 2 else mkRat 3 2)
      [true, false, true] [1] = some 0 ∧
    single_env_reward "meansum" (fun p _ => if p = 0 then mkRat 1 2 else mkRat 3 2)
      [true, false, true] [1] = none := by
  decide

/-- C8: constructing the environment succeeds exactly when reward_type is
minmax or meansum; an unrecognized value fails the assert during __init__,
before any instance can be generated. -/
theorem c8_reward_type_validated_at_init (size npmin npmax nkmin nkmax : ℕ) (rt : String) :
    ((mdpp_init size npmin npmax nkmin nkmax rt).isSome ↔
      (rt = "minmax" ∨ rt = "meansum")) := by
  unfold mdpp_init
  split <;> simp_all

/-- C3 counterexample: probe and keepout cells are not generated disjoint. The
keepout cells are the first num_keepout entries of a fresh permutation of all
cells, drawn independently of the probe draws. At envB (keepout count always 1)
with the valid draws drawsB, cell 1 is a probe cell and also the sampled
keepout cell. -/
theorem c3_probe_keepout_not_disjoint :
    drawsB.permProbe.Perm (List.range (grid_n envB)) ∧
    drawsB.permKeepout.Perm (List.range (grid_n envB)) ∧
    (generate_instance envB drawsB).probe.getD 1 false = true ∧
    1 ∈ probe_cells envB drawsB ∧
    1 ∈ keepout_cells envB drawsB := by
  decide

/-- C3 amended: keepout cells are sampled from a fresh permutation of all
cells, independently of the probes, so they may coincide with probe cells;
the overlap is idempotent because the generated action_mask is false exactly
on the union of the designated cell, the probe cells and the keepout cells. -/
theorem c3_amended_mask_excludes_union (e : Env) (d : GenDraws) (c : ℕ)
    (hc : c < grid_n e) :
    ((generate_instance e d).action_mask.getD c false = false ↔
      (designated e d = c ∨ c ∈ probe_cells e d ∨ c ∈ keepout_cells e d)) :=
  generated_mask_eq_false e d c hc

/-- C3 witness: the amended characterization evaluated at envB, drawsB,
cell 1. -/
theorem c3_amended_witness :
    ((generate_instance envB drawsB).action_mask.getD 1 false = false ↔
      (designated envB drawsB = 1 ∨ 1 ∈ probe_cells envB drawsB ∨
        1 ∈ keepout_cells envB drawsB)) :=
  c3_amended_mask_excludes_union envB drawsB 1 (by decide)

/-- C4 counterexample: with num_keepout_min = 0 and num_keepout_max = 1 the
post-reset action_mask does not equal the pointwise negation of the probe
mask. At envA with the valid draws drawsA: cell 0 is the designated probe cell
and not a probe cell, yet the mask is false there; cell 1 is a probe cell, yet
after the logical_or of _reset the mask is true there. -/
theorem c4_mask_not_negation_of_probe :
    envA.num_keepout_min = 0 ∧ envA.num_keepout_max = 1 ∧
    drawsA.permProbe.Perm (List.range (grid_n envA)) ∧
    drawsA.permKeepout.Perm (List.range (grid_n envA)) ∧
    num_keepout_of envA drawsA = 0 ∧
    ((mdpp_reset (dpp_base_reset (generate_instance envA drawsA))).action_mask.getD 0 false
      ≠ !(generate_instance envA drawsA).probe.getD 0 false) ∧
    ((mdpp_reset (dpp_base_reset (generate_instance envA drawsA))).action_mask.getD 1 false
      ≠ !(generate_instance envA drawsA).probe.getD 1 false) := by
  decide

/-- C4 amended: with num_keepout_min = 0 and num_keepout_max = 1 zero keepout
cells are sampled; the post-reset action_mask is false exactly at the
designated cell when that cell is not in the probe set, and true everywhere
else, in particular at every probe cell. -/
theorem c4_amended_zero_keepout_reset_mask (e : Env) (d : GenDraws)
    (hk0 : e.num_keepout_min = 0) (hk1 : e.num_keepout_max = 1) (c : ℕ)
    (hc : c < grid_n e) :
    num_keepout_of e d = 0 ∧ keepout_cells e d = [] ∧
    ((mdpp_reset (dpp_base_reset (generate_instance e d))).action_mask.getD c false = false ↔
      (designated e d = c ∧ c ∉ probe_cells e d)) := by
  have hk : num_keepout_of e d = 0 := by
    simp only [num_keepout_of, randint, hk0, hk1]
    omega
  refine ⟨hk, by simp [keepout_cells, hk], ?_⟩
  rw [show dpp_base_reset (generate_instance e d) = generate_instance e d from rfl,
    reset_mask_getD _ (by rw [length_generated_mask, length_generated_probe])]
  rw [Bool.or_eq_false_iff]
  constructor
  · rintro ⟨hm, hp⟩
    rcases (generated_mask_eq_false e d c hc).mp hm with h | h | h
    · refine ⟨h, fun hmem => ?_⟩
      have ht := (generated_probe_eq_true e d c).mpr ⟨hmem, hc⟩
      rw [ht] at hp
      exact Bool.noConfusion hp
    · have ht := (generated_probe_eq_true e d c).mpr ⟨h, hc⟩
      rw [ht] at hp
      exact Bool.noConfusion hp
    · rw [keepout_cells, hk] at h
      simp at h
  · rintro ⟨hd, hp⟩
    refine ⟨(generated_mask_eq_false e d c hc).mpr (Or.inl hd), ?_⟩
    cases hb : (generate_instance e d).probe.getD c false with
    | false => rfl
    | true => exact absurd ((generated_probe_eq_true e d c).mp hb).1 hp

/-- C4 witness: the amended statement evaluated at envA, drawsA, cell 0. -/
theorem c4_amended_witness :
    num_keepout_of envA drawsA = 0 ∧ keepout_cells envA drawsA = [] ∧
    ((mdpp_reset (dpp_base_reset (generate_instance envA drawsA))).action_mask.getD 0 false
        = false ↔
      (designated envA drawsA = 0 ∧ 0 ∉ probe_cells envA drawsA)) :=
  c4_amended_zero_keepout_reset_mask envA drawsA (by decide) (by decide) 0 (by decide)

/-- C5: the probe count sampled by generate_data lies in the half-open range
from num_probes_min (inclusive) to num_probes_max (exclusive), and each
instance of the batch is produced from its own independent draws: entry i of
the generated batch depends only on entry i of the draw list. -/
theorem c5_num_probe_strict_range (e : Env) (ds : List GenDraws)
    (h : e.num_probes_min < e.num_probes_max) :
    (∀ d : GenDraws, e.num_probes_min ≤ num_probe_of e d ∧
      num_probe_of e d < e.num_probes_max) ∧
    (∀ i : ℕ, (generate_batch e ds)[i]? = (ds[i]?).map (generate_instance e)) := by
  constructor
  · intro d
    have h2 : 0 < e.num_probes_max - e.num_probes_min := by omega
    have h3 := Nat.mod_lt d.uNumProbe h2
    unfold num_probe_of randint
    omega
  · intro i
    simp [generate_batch]

/-- C5 witness: the range bounds evaluated at envA, drawsA. -/
theorem c5_witness :
    (envA.num_probes_min ≤ num_probe_of envA drawsA ∧
      num_probe_of envA drawsA < envA.num_probes_max) :=
  (c5_num_probe_strict_range envA [] (by decide)).1 drawsA

/-- C6: get_reward on a batch of B instances yields B rewards; the unbatched
call wraps the instance into a singleton batch, so it yields the one-element
stack of the same _single_env_reward value the batched B = 1 path computes. -/
theorem c6_get_reward_shape_and_parity (rt : String) (sim : ℕ → List ℕ → ℚ)
    (tds : List (List Bool)) (actionsB : List (List ℕ)) (B : ℕ)
    (_hB : 0 < B) (h1 : tds.length = B) (h2 : actionsB.length = B)
    (td : List Bool) (actions : List ℕ) :
    (get_reward_batched rt sim tds actionsB).length = B ∧
    get_reward_single rt sim td actions = get_reward_batched rt sim [td] [actions] ∧
    get_reward_single rt sim td actions = [single_env_reward rt sim td actions] := by
  refine ⟨?_, rfl, rfl⟩
  simp [get_reward_batched, h1, h2]

/-- C6 witness: shapes and parity evaluated at a concrete singleton batch. -/
theorem c6_witness :
    (get_reward_batched "minmax" (fun _ _ => 0) [[true, true]] [[0]]).length = 1 ∧
    get_reward_single "minmax" (fun _ _ => 0) [true, true] [0]
      = get_reward_batched "minmax" (fun _ _ => 0) [[true, true]] [[0]] ∧
    get_reward_single "minmax" (fun _ _ => 0) [true, true] [0]
      = [single_env_reward "minmax" (fun _ _ => 0) [true, true] [0]] :=
  c6_get_reward_shape_and_parity "minmax" (fun _ _ => 0) [[true, true]] [[0]] 1
    (by decide) (by decide) (by decide) [true, true] [0]

theorem getD_false_of_le (l : List Bool) (c : ℕ) (h : l.length ≤ c) :
    l.getD c false = false := by
  simp [List.getD_eq_getElem?_getD, List.getElem?_eq_none h]

/-- C9: generate_data first draws one designated probe cell uniformly from the
N cells and scatters false into available there, so the emitted action_mask is
false at this extra cell, and also at every probe-set cell and every keepout
cell. -/
theorem c9_designated_cell_excluded (e : Env) (d : GenDraws) (hN : 0 < grid_n e) :
    designated e d < grid_n e ∧
    (generate_instance e d).action_mask.getD (designated e d) false = false ∧
    (∀ c, c ∈ probe_cells e d →
      (generate_instance e d).action_mask.getD c false = false) ∧
    (∀ c, c ∈ keepout_cells e d →
      (generate_instance e d).action_mask.getD c false = false) := by
  have hd : designated e d < grid_n e := by
    unfold designated randint
    have h3 := Nat.mod_lt d.uInit (by omega : 0 < grid_n e - 0)
    omega
  refine ⟨hd, (generated_mask_eq_false e d _ hd).mpr (Or.inl rfl), ?_, ?_⟩
  · intro c hcmem
    by_cases hc : c < grid_n e
    · exact (generated_mask_eq_false e d c hc).mpr (Or.inr (Or.inl hcmem))
    · exact getD_false_of_le _ _ (by rw [length_generated_mask]; omega)
  · intro c hcmem
    by_cases hc : c < grid_n e
    · exact (generated_mask_eq_false e d c hc).mpr (Or.inr (Or.inr hcmem))
    · exact getD_false_of_le _ _ (by rw [length_generated_mask]; omega)

/-- C9 witness: evaluated at envA, drawsA, including probe cell 1. -/
theorem c9_witness :
    designated envA drawsA < grid_n envA ∧
    (generate_instance envA drawsA).action_mask.getD (designated envA drawsA) false = false ∧
    (generate_instance envA drawsA).action_mask.getD 1 false = false :=
  ⟨(c9_designated_cell_excluded envA drawsA (by decide)).1,
   (c9_designated_cell_excluded envA drawsA (by decide)).2.1,
   (c9_designated_cell_excluded envA drawsA (by decide)).2.2.1 1 (by decide)⟩

/-- C10: torch.nonzero(probe).squeeze() yields a 0-dim tensor when the probe
mask has exactly one true cell, and iterating it raises, so _single_env_reward
yields no score there; more generally a score is only ever returned when the
instance has at least two probe cells. -/
theorem c10_reward_partial_single_probe (rt : String) (sim : ℕ → List ℕ → ℚ)
    (probe : List Bool) (actions : List ℕ) :
    (probe.count true = 1 → single_env_reward rt sim probe actions = none) ∧
    (∀ r : ℚ, single_env_reward rt sim probe actions = some r →
      2 ≤ probe.count true) := by
  constructor
  · intro h1
    have hlen : (nonzeroIdx probe).length = 1 := by rw [length_nonzeroIdx, h1]
    simp [single_env_reward, hlen]
  · intro r hr
    rw [← length_nonzeroIdx]
    simp only [single_env_reward] at hr
    by_cases hlen : (nonzeroIdx probe).length = 1
    · rw [if_pos hlen] at hr
      exact Option.noConfusion hr
    · rw [if_neg hlen] at hr
      by_cases hrt : rt = "minmax"
      · rw [if_pos hrt] at hr
        rcases hnz : nonzeroIdx probe with _ | ⟨a, t⟩
        · rw [hnz] at hr
          simp [listMin] at hr
        · rw [hnz] at hlen
          simp only [List.length_cons] at hlen ⊢
          omega
      · rw [if_neg hrt] at hr
        exact Option.noConfusion hr

/-- C10 witness: a single-probe instance yields no reward. -/
theorem c10_witness :
    single_env_reward "minmax" (fun _ _ => mkRat 2 5) [false, true, false] [0] = none :=
  (c10_reward_partial_single_probe "minmax" (fun _ _ => mkRat 2 5)
    [false, true, false] [0]).1 (by decide)

end MDPP
